import Mathlib

/-!
# Internship portal: shallow embedding of the policy / state-machine layer

This file embeds the security-relevant core of an internship-application
portal: the SQL schema, row-level-security (RLS) policies, triggers and the
`has_role` helper from the database migration; the client-side handlers
`handleApply` (student dashboard), `handleStatusUpdate` (admin dashboard),
`handleSignUp` / `handleSignIn` (auth page, zod validation); and the
notification-email edge function `handler`.

Conventions of the embedding:
* principal identifiers (`uuid`) are modelled as `Nat`;
* an authenticated request carries `some uid`, an anonymous one `none`
  (`auth.uid()` is NULL for anonymous requests, and the SQL comparison
  `user_id = NULL` matches no row);
* timestamps are `Nat` and `now` is passed explicitly;
* a database trigger runs inside the triggering statement, so a statement
  plus its triggers is a single transition function on the database state;
* the outcome of an external network call (email delivery, auth provider)
  is an explicit `Bool`/`Option` parameter of the handler that makes it.
-/

abbrev Uuid := Nat

/-- The `app_role` enum from the migration: `('student', 'admin')`. -/
inductive AppRole
  | student
  | admin
deriving DecidableEq, Repr

/-- A row of `public.profiles`. -/
structure ProfileRow where
  id : Uuid
  full_name : String
  email : String
  student_id : Option String
  department : Option String
deriving DecidableEq, Repr

/-- A row of `public.user_roles`. The surrogate `id` column plays no role in
any policy and is omitted. -/
structure UserRoleRow where
  user_id : Uuid
  role : AppRole
deriving DecidableEq, Repr

/-- A row of `public.internships`. -/
structure InternshipRow where
  id : Uuid
  company_name : String
  position_title : String
  description : String
  salary : String
  duration : String
  required_skills : List String
  location : String
  is_active : Bool
deriving DecidableEq, Repr

/-- A row of `public.applications`. `status` is a `text` column constrained
by `CHECK (status IN ('pending', 'accepted', 'rejected'))`; `feedback` is
nullable. -/
structure ApplicationRow where
  id : Uuid
  internship_id : Uuid
  student_id : Uuid
  status : String
  feedback : Option String
  applied_at : Nat
  updated_at : Nat
deriving DecidableEq, Repr

/-- The database state: the four application tables. -/
structure DB where
  profiles : List ProfileRow
  user_roles : List UserRoleRow
  internships : List InternshipRow
  applications : List ApplicationRow
deriving DecidableEq, Repr

def emptyDB : DB := { profiles := [], user_roles := [], internships := [], applications := [] }

/-- `auth.role()`: the JWT role claim, `'authenticated'` for any signed-in
principal and `'anon'` otherwise.  Note this is a property of the session,
independent of the `user_roles` table. -/
def authRole (uid : Option Uuid) : String :=
  match uid with
  | some _ => "authenticated"
  | none => "anon"

/-- `public.has_role(_user_id, _role)`: a `STABLE SECURITY DEFINER` SQL
function, `SELECT EXISTS (SELECT 1 FROM public.user_roles WHERE user_id =
_user_id AND role = _role)`.  `SECURITY DEFINER` means it reads the full
`user_roles` table, bypassing the caller's RLS visibility; being a plain
`SELECT EXISTS` it is side-effect-free (here: a pure function) and total —
it returns `false`, never an error, when no row matches, including when
`_user_id` is NULL (`none`), since `user_id = NULL` matches no row. -/
def has_role (roles : List UserRoleRow) (uid : Option Uuid) (r : AppRole) : Bool :=
  match uid with
  | none => false
  | some u => roles.any (fun row => row.user_id == u && row.role == r)

/-- The RLS SELECT policy on `user_roles`: `"Users can view their own
roles"`, `USING (auth.uid() = user_id)` — the rows of `user_roles` a given
requester can itself read. -/
def visibleUserRoles (roles : List UserRoleRow) (uid : Option Uuid) : List UserRoleRow :=
  roles.filter (fun row => uid == some row.user_id)

/-- Combined RLS SELECT decision on `internships`: policy `"Anyone
authenticated can view active internships"` — `USING (auth.role() =
'authenticated' AND is_active = true)` — OR'd (permissive policies) with
`"Admins can manage internships"` — `FOR ALL USING
(public.has_role(auth.uid(), 'admin'))`, whose USING clause also applies to
SELECT. -/
def internshipSelectAllowed (db : DB) (uid : Option Uuid) (row : InternshipRow) : Bool :=
  (authRole uid == "authenticated" && row.is_active) || has_role db.user_roles uid .admin

/-- The list a SELECT on `internships` returns to the requester: RLS
silently filters rows; a denied read yields an empty result, not an error. -/
def visibleInternships (db : DB) (uid : Option Uuid) : List InternshipRow :=
  db.internships.filter (internshipSelectAllowed db uid)

/-- Combined RLS SELECT decision on `applications`: `"Students can view
their own applications"` (`USING (auth.uid() = student_id)`) OR `"Admins can
view all applications"` (`USING (public.has_role(auth.uid(), 'admin'))`). -/
def applicationSelectAllowed (db : DB) (uid : Option Uuid) (row : ApplicationRow) : Bool :=
  uid == some row.student_id || has_role db.user_roles uid .admin

/-- RLS INSERT policy on `applications`: `"Students can create their own
applications"`, `WITH CHECK (auth.uid() = student_id AND status =
'pending')`. -/
def applicationInsertAllowed (uid : Option Uuid) (row : ApplicationRow) : Bool :=
  uid == some row.student_id && row.status == "pending"

/-- RLS UPDATE policy on `applications`: `"Admins can update applications"`,
`USING (public.has_role(auth.uid(), 'admin'))`, with no `WITH CHECK`, so the
same expression also gates the new row.  Note it does not mention the row's
`status` at all. -/
def applicationUpdateAllowed (db : DB) (uid : Option Uuid) : Bool :=
  has_role db.user_roles uid .admin

/-- The column constraint `CHECK (status IN ('pending', 'accepted',
'rejected'))` on `applications.status`. -/
def statusCheck (s : String) : Bool :=
  s == "pending" || s == "accepted" || s == "rejected"

/-- Does `applications` already hold a row for the pair
`(internship_id, student_id)`?  This is the lookup the
`UNIQUE (internship_id, student_id)` constraint performs. -/
def pairExists (apps : List ApplicationRow) (iid sid : Uuid) : Bool :=
  apps.any (fun a => a.internship_id == iid && a.student_id == sid)

/-- The three error classes the datastore can surface to a write on
`applications`: an RLS denial, a `UNIQUE` violation, a `CHECK` violation. -/
inductive DbError
  | policyDenied
  | conflict
  | checkViolation
deriving DecidableEq, Repr

/-- The message string the datastore attaches to each error; these are the
distinct PostgreSQL messages the client's `error.message` displays. -/
def dbErrorMessage : DbError → String
  | .policyDenied => "new row violates row-level security policy for table \"applications\""
  | .conflict => "duplicate key value violates unique constraint \"applications_internship_id_student_id_key\""
  | .checkViolation => "new row for relation \"applications\" violates check constraint \"applications_status_check\""

/-- An INSERT into `applications` as the datastore executes it: the RLS
WITH CHECK, the `status` CHECK constraint and the
`UNIQUE (internship_id, student_id)` constraint gate the write; on success
the row is appended, on failure the state is unchanged and the error is
returned. -/
def insertApplication (db : DB) (uid : Option Uuid) (row : ApplicationRow) :
    Except DbError DB :=
  if !applicationInsertAllowed uid row then .error .policyDenied
  else if !statusCheck row.status then .error .checkViolation
  else if pairExists db.applications row.internship_id row.student_id then .error .conflict
  else .ok { db with applications := db.applications ++ [row] }

/-- The `update_application_timestamp` BEFORE UPDATE trigger:
`NEW.updated_at = now()`, applied to every updated row. -/
def update_application_timestamp (a : ApplicationRow) (now : Nat) : ApplicationRow :=
  { a with updated_at := now }

/-- The new row an admin UPDATE produces from an existing row: the SET list
`{status, feedback}` of the client update, then the timestamp trigger. -/
def updateApplicationRow (a : ApplicationRow) (newStatus : String)
    (newFeedback : Option String) (now : Nat) : ApplicationRow :=
  update_application_timestamp { a with status := newStatus, feedback := newFeedback } now

/-- An UPDATE on `applications` filtered by `eq("id", applicationId)` as the
datastore executes it.  Rows that fail the UPDATE policy's USING clause are
invisible to the UPDATE: zero rows are affected and no error is raised.
When rows are visible, the new row must satisfy the `status` CHECK
constraint; the USING expression (role-only) doubles as the WITH CHECK and
is already satisfied.  The timestamp trigger fires on each updated row. -/
def updateApplication (db : DB) (uid : Option Uuid) (appId : Uuid)
    (newStatus : String) (newFeedback : Option String) (now : Nat) :
    Except DbError DB :=
  if !applicationUpdateAllowed db uid then .ok db
  else if db.applications.any (fun a => a.id == appId) && !statusCheck newStatus then
    .error .checkViolation
  else .ok { db with
    applications := db.applications.map
      (fun a => if a.id == appId then updateApplicationRow a newStatus newFeedback now else a) }

/-- The signup metadata (`raw_user_meta_data`) the auth page attaches:
`{ full_name, student_id, department, role: userType }`. -/
structure SignupMeta where
  full_name : Option String
  student_id : Option String
  department : Option String
  role : Option String
deriving DecidableEq, Repr

/-- A row of `auth.users` as seen by the `on_auth_user_created` trigger. -/
structure AuthUser where
  id : Uuid
  email : String
  raw_user_meta_data : SignupMeta
deriving DecidableEq, Repr

/-- `public.handle_new_user()`: the `SECURITY DEFINER` trigger function run
by `on_auth_user_created` AFTER INSERT ON `auth.users`.  It inserts the
profile row (`COALESCE(... ->> 'full_name', '')`) and exactly one
`user_roles` row — `admin` when `raw_user_meta_data ->> 'role' = 'admin'`,
else `student` — inside the same transaction as the `auth.users` insert,
so both inserts form one atomic transition. -/
def handle_new_user (db : DB) (u : AuthUser) : DB :=
  let profileRow : ProfileRow :=
    { id := u.id
      full_name := u.raw_user_meta_data.full_name.getD ""
      email := u.email
      student_id := u.raw_user_meta_data.student_id
      department := u.raw_user_meta_data.department }
  let assigned : AppRole :=
    if u.raw_user_meta_data.role == some "admin" then .admin else .student
  { db with
    profiles := db.profiles ++ [profileRow]
    user_roles := db.user_roles ++ [{ user_id := u.id, role := assigned }] }

/-- A toast shown to the user, success or error, with its message. -/
inductive Toast
  | success (msg : String)
  | error (msg : String)
deriving DecidableEq, Repr

/-- `handleApply` from the student dashboard: inserts
`{internship_id, student_id: user.id, status: "pending"}` and toasts
`error.message` on failure (so a conflict is surfaced with the distinct
duplicate-key message), leaving the database unchanged on failure. -/
def handleApply (db : DB) (uid : Uuid) (internshipId : Uuid) (newId : Uuid)
    (now : Nat) : DB × Toast :=
  let row : ApplicationRow :=
    { id := newId, internship_id := internshipId, student_id := uid
      status := "pending", feedback := none, applied_at := now, updated_at := now }
  match insertApplication db (some uid) row with
  | .ok db' => (db', .success "Application submitted successfully!")
  | .error e => (db, .error (dbErrorMessage e))

/-- The operations that can touch the `applications` table (directly or via
the signup trigger): the transition system whose reachable states the
uniqueness invariant quantifies over.  A failed datastore write leaves the
state unchanged. -/
inductive Op
  | newUser (u : AuthUser)
  | applyTo (uid : Uuid) (internshipId : Uuid) (newId : Uuid) (now : Nat)
  | adminUpdate (uid : Option Uuid) (appId : Uuid) (newStatus : String)
      (newFeedback : Option String) (now : Nat)

/-- One transition step. -/
def applyOp (db : DB) : Op → DB
  | .newUser u => handle_new_user db u
  | .applyTo uid iid newId now => (handleApply db uid iid newId now).1
  | .adminUpdate uid appId st fb now =>
    match updateApplication db uid appId st fb now with
    | .ok db' => db'
    | .error _ => db

/-- The state reached from the empty database by a sequence of operations. -/
def reachable (ops : List Op) : DB := ops.foldl applyOp emptyDB

/-- No two rows of the list share the `(internship_id, student_id)` pair:
the property the `UNIQUE (internship_id, student_id)` constraint maintains. -/
def appPairUnique : List ApplicationRow → Bool
  | [] => true
  | a :: rest => !pairExists rest a.internship_id a.student_id && appPairUnique rest

/-- The UI gate in the admin dashboard: the Accept / Reject controls (the
only callers of `handleStatusUpdate`) are rendered only under
`application.status === 'pending'`. -/
def adminControlsVisible (a : ApplicationRow) : Bool :=
  a.status == "pending"

/-- The body the admin dashboard sends to the `send-application-email`
function: `{ to, status, feedback: feedback[applicationId] || '' }`.
(The JSON field `to` is named `recipient` here because `to` is a reserved
word in Lean.) -/
structure EmailRequest where
  recipient : String
  status : String
  feedback : String
deriving DecidableEq, Repr

/-- The outcome of one run of `handleStatusUpdate`: the database afterwards,
how many email attempts were made, the request body of the attempt (if
any), and the toast shown to the admin. -/
structure StatusUpdateResult where
  db : DB
  emailAttempts : Nat
  emailPayload : Option EmailRequest
  toast : Toast
deriving DecidableEq, Repr

/-- `handleStatusUpdate` from the admin dashboard.  `feedbackText` is
`feedback[applicationId]`, the controlled textarea value (`''` when empty or
never touched); JavaScript `feedbackText || null` maps `''` to `null` in the
update payload and `feedbackText || ''` keeps `''` in the email payload.
The update runs first; on update error the function throws before any email
call.  On update success exactly one email invocation is made; if it fails
the error is logged and the distinct toast `"Status updated but email
notification failed"` is shown — the committed update is neither rolled
back nor retried, and no second attempt happens. -/
def handleStatusUpdate (db : DB) (uid : Option Uuid) (applicationId : Uuid)
    (newStatus : String) (studentEmail : String) (feedbackText : String)
    (now : Nat) (emailOk : Bool) : StatusUpdateResult :=
  match updateApplication db uid applicationId newStatus
      (if feedbackText == "" then none else some feedbackText) now with
  | .error e =>
    { db := db, emailAttempts := 0, emailPayload := none
      toast := .error (dbErrorMessage e) }
  | .ok db' =>
    let payload : EmailRequest :=
      { recipient := studentEmail, status := newStatus, feedback := feedbackText }
    if emailOk then
      { db := db', emailAttempts := 1, emailPayload := some payload
        toast := .success ("Application " ++ newStatus ++ " and email sent!") }
    else
      { db := db', emailAttempts := 1, emailPayload := some payload
        toast := .error "Status updated but email notification failed" }

/-- The subject line for an accepted application in the
`send-application-email` edge function. -/
def acceptedSubject : String := "🎉 Your Internship Application Has Been Accepted!"

/-- The subject line used for every status other than `'accepted'`. -/
def rejectedSubject : String := "Update on Your Internship Application"

/-- `const subject = status === 'accepted' ? ... : ...` in the edge
function: only the exact string `'accepted'` selects the acceptance
subject. -/
def emailSubject (status : String) : String :=
  if status == "accepted" then acceptedSubject else rejectedSubject

/-- The acceptance HTML body; `feedback ? ... : ''` inserts the feedback
block only for a non-empty (truthy) feedback string. -/
def acceptedBody (feedback : String) : String :=
  "<div style=\"font-family: Arial, sans-serif; max-width: 600px; margin: 0 auto;\">" ++
  "<h1 style=\"color: #059669;\">Congratulations!</h1>" ++
  "<p>We are pleased to inform you that your internship application has been <strong>accepted</strong>.</p>" ++
  (if feedback != "" then
    "<div style=\"background-color: #f0f9ff; padding: 15px; border-left: 4px solid #059669; margin: 20px 0;\">" ++
    "<p style=\"margin: 0;\"><strong>Message from Admin:</strong></p>" ++
    "<p style=\"margin: 10px 0 0 0;\">" ++ feedback ++ "</p></div>"
  else "") ++
  "<p>Please check your student portal for next steps.</p>" ++
  "<p style=\"margin-top: 30px;\">Best regards,<br><strong>KLU Internship Management Team</strong></p></div>"

/-- The rejection HTML body, used for every status other than `'accepted'`. -/
def rejectedBody (feedback : String) : String :=
  "<div style=\"font-family: Arial, sans-serif; max-width: 600px; margin: 0 auto;\">" ++
  "<h1 style=\"color: #dc2626;\">Application Update</h1>" ++
  "<p>Thank you for your interest in our internship program.</p>" ++
  "<p>After careful consideration, we regret to inform you that your application was not selected at this time.</p>" ++
  (if feedback != "" then
    "<div style=\"background-color: #fef2f2; padding: 15px; border-left: 4px solid: #dc2626; margin: 20px 0;\">" ++
    "<p style=\"margin: 0;\"><strong>Feedback:</strong></p>" ++
    "<p style=\"margin: 10px 0 0 0;\">" ++ feedback ++ "</p></div>"
  else "") ++
  "<p>We encourage you to continue developing your skills and apply for future opportunities.</p>" ++
  "<p style=\"margin-top: 30px;\">Best regards,<br><strong>KLU Internship Management Team</strong></p></div>"

/-- `const message = status === 'accepted' ? ... : ...`: template selection
in the edge function mirrors the subject selection. -/
def emailMessage (status feedback : String) : String :=
  if status == "accepted" then acceptedBody feedback else rejectedBody feedback

/-- What one run of the edge function `handler` produced: the subject and
HTML actually handed to the send API (present whenever the send was
attempted), and the HTTP status of the handler's response. -/
structure HandlerResult where
  sentSubject : Option String
  sentHtml : Option String
  responseStatus : Nat
deriving DecidableEq, Repr

/-- The `send-application-email` `handler` on a (non-preflight) request:
it parses `{to, status, feedback}`, computes subject and message with no
validation of `status` whatsoever, always attempts the send, and answers
200 on delivery success and 500 (via the catch block) on delivery failure.
`sendOk` is the outcome of the external delivery call. -/
def emailHandler (req : EmailRequest) (sendOk : Bool) : HandlerResult :=
  let subject := emailSubject req.status
  let message := emailMessage req.status req.feedback
  if sendOk then
    { sentSubject := some subject, sentHtml := some message, responseStatus := 200 }
  else
    { sentSubject := some subject, sentHtml := some message, responseStatus := 500 }

/-- Characters zod's email pattern accepts anywhere in the local part:
letters, digits, `_`, the apostrophe, `+`, `-`, `.`. -/
def isEmailLocalChar (c : Char) : Bool :=
  c.isAlpha || c.isDigit || c == '_' || c == Char.ofNat 39 || c == '+' || c == '-' || c == '.'

/-- Characters allowed as the final character of the local part (no dot). -/
def isEmailLocalEndChar (c : Char) : Bool :=
  c.isAlpha || c.isDigit || c == '_' || c == '+' || c == '-'

/-- No two consecutive dots (the `(?!.*\x2e\x2e)` lookahead). -/
def noDoubleDot : List Char → Bool
  | [] => true
  | [_] => true
  | a :: b :: rest => !(a == '.' && b == '.') && noDoubleDot (b :: rest)

/-- The local part: non-empty, not starting with a dot, all characters from
the local class, last character from the end class. -/
def localPartOk (l : List Char) : Bool :=
  match l with
  | [] => false
  | c :: _ =>
    c != '.' && l.all isEmailLocalChar &&
    (match l.getLast? with
     | some last => isEmailLocalEndChar last
     | none => false)

/-- Whitespace trimming at both ends of a character list — the model of
JavaScript `.trim()` that zod's `z.string().trim()` applies. -/
def trimChars (l : List Char) : List Char :=
  ((l.dropWhile Char.isWhitespace).reverse.dropWhile Char.isWhitespace).reverse

/-- `.trim()` on a string. -/
def strTrim (s : String) : String := ⟨trimChars s.data⟩

/-- Split a character list on a separator character (the splitting the
email pattern performs at `@` and inside the domain at `.`). -/
def splitOnChar (c : Char) : List Char → List (List Char)
  | [] => [[]]
  | x :: xs =>
    match splitOnChar c xs, x == c with
    | r, true => [] :: r
    | [], false => [[x]]
    | y :: ys, false => (x :: y) :: ys

/-- One non-final domain label: leading alphanumeric, then alphanumerics or
hyphens. -/
def domainLabelOk (l : List Char) : Bool :=
  match l with
  | [] => false
  | c :: rest => (c.isAlpha || c.isDigit) && rest.all (fun ch => ch.isAlpha || ch.isDigit || ch == '-')

/-- The final label: at least two letters. -/
def tldOk (l : List Char) : Bool :=
  decide (l.length ≥ 2) && l.all Char.isAlpha

/-- The domain: at least two dot-separated labels, all non-final labels
well-formed, final label a letter-only TLD. -/
def domainOk (l : List Char) : Bool :=
  let parts := splitOnChar '.' l
  decide (parts.length ≥ 2) &&
  (match parts.getLast? with
   | some t => tldOk t
   | none => false) &&
  parts.dropLast.all domainLabelOk

/-- `z.string().email()`: zod's email pattern — exactly one `@`, a
well-formed local part, no `..` anywhere, a well-formed domain. -/
def zodEmailOk (s : String) : Bool :=
  match splitOnChar '@' s.data with
  | [lp, dom] => localPartOk lp && noDoubleDot s.data && domainOk dom
  | _ => false

/-- The result of running a zod schema's `parse`: `ok`, or the message of
`error.errors[0]` — the first violation in the schema's field order. -/
inductive ValidationResult
  | ok
  | err (msg : String)
deriving DecidableEq, Repr

/-- `signupSchema` from the auth page: `email` trimmed then checked
syntactically; `password` at least 6 characters; `fullName` trimmed then
non-empty; `studentId` and `department` optional strings that cannot fail.
`error.errors[0].message` reports the first failing field in declaration
order (email, password, fullName). -/
def signupSchema (email password fullName : String)
    (_studentId _department : Option String) : ValidationResult :=
  if !zodEmailOk (strTrim email) then .err "Invalid email address"
  else if password.length < 6 then .err "Password must be at least 6 characters"
  else if (strTrim fullName).length < 1 then .err "Full name is required"
  else .ok

/-- `signinSchema` from the auth page: a trimmed syntactically valid email
and a non-empty password. -/
def signinSchema (email password : String) : ValidationResult :=
  if !zodEmailOk (strTrim email) then .err "Invalid email address"
  else if password.length < 1 then .err "Password is required"
  else .ok

/-- The observable outcome of the signup / signin handlers: whether the
auth-provider network call was made, and the toast shown. -/
structure AuthFlowResult where
  networkCalled : Bool
  toast : Toast
deriving DecidableEq, Repr

/-- `handleSignUp`: `signupSchema.parse(data)` runs before
`supabase.auth.signUp`; a `ZodError` is caught and its first issue's
message toasted with no network call made.  `signUpError` is the
auth-provider outcome (`some message` on error) of the call when it is
reached; `error.message || "Error creating account"` falls back on an empty
message. -/
def handleSignUp (email password fullName : String)
    (studentId department : Option String)
    (signUpError : Option String) : AuthFlowResult :=
  match signupSchema email password fullName studentId department with
  | .err m => { networkCalled := false, toast := .error m }
  | .ok =>
    match signUpError with
    | some m =>
      { networkCalled := true
        toast := .error (if m == "" then "Error creating account" else m) }
    | none => { networkCalled := true, toast := .success "Account created successfully!" }

/-- `handleSignIn`: `signinSchema.parse(data)` runs before
`supabase.auth.signInWithPassword`, with the same catch structure. -/
def handleSignIn (email password : String)
    (signInError : Option String) : AuthFlowResult :=
  match signinSchema email password with
  | .err m => { networkCalled := false, toast := .error m }
  | .ok =>
    match signInError with
    | some m =>
      { networkCalled := true
        toast := .error (if m == "" then "Error signing in" else m) }
    | none => { networkCalled := true, toast := .success "Signed in successfully!" }

/-! ## Concrete example states used by witnesses and counterexamples -/

/-- An application of student 2 for internship 20 already in terminal
status `accepted`. -/
def appAccepted10 : ApplicationRow :=
  { id := 10, internship_id := 20, student_id := 2
    status := "accepted", feedback := none, applied_at := 0, updated_at := 0 }

/-- A state with one admin (principal 1) and one already-accepted
application (id 10) of student 2 for internship 20. -/
def dbAdminAccepted : DB :=
  { profiles := []
    user_roles := [{ user_id := 1, role := .admin }]
    internships := []
    applications := [appAccepted10] }

/-- An active internship posting. -/
def internshipActive3 : InternshipRow :=
  { id := 3, company_name := "TechCorp Solutions"
    position_title := "Frontend Developer Intern", description := "d"
    salary := "$800-1200/month", duration := "3-6 months"
    required_skills := ["React"], location := "Remote", is_active := true }

/-- An inactive internship posting. -/
def internshipInactive4 : InternshipRow :=
  { id := 4, company_name := "DataStream Analytics"
    position_title := "Data Science Intern", description := "d"
    salary := "$1000-1500/month", duration := "4-6 months"
    required_skills := ["Python"], location := "Remote", is_active := false }

/-- A state with an empty `user_roles` table, one active internship (id 3)
and one inactive internship (id 4). -/
def dbNoRoles : DB :=
  { profiles := []
    user_roles := []
    internships := [internshipActive3, internshipInactive4]
    applications := [] }

/-- A `user_roles` table holding an admin row for principal 2 only. -/
def rolesAdminOnly : List UserRoleRow := [{ user_id := 2, role := .admin }]

/-! ## Theorems -/

/-- Claim C1, counterexample: in `dbAdminAccepted` the application (id 10)
has terminal status `accepted`, yet the policy layer accepts admin 1's
update setting it back to `pending`: the update succeeds and the stored
status becomes `pending`.  The RLS UPDATE policy checks only the admin
role, never the row's status, so the claim that the policy rejects status
mutations of non-pending applications is false. -/
theorem accepted_application_policy_allows_mutation :
    dbAdminAccepted.applications.countP
      (fun a => a.id == 10 && a.status == "accepted") = 1 ∧
    applicationUpdateAllowed dbAdminAccepted (some 1) = true ∧
    (updateApplication dbAdminAccepted (some 1) 10 "pending" none 5).toOption =
      some { dbAdminAccepted with
        applications := [{ id := 10, internship_id := 20, student_id := 2
                           status := "pending", feedback := none
                           applied_at := 0, updated_at := 5 }] } := by
  decide

/-- Claim C1 (amended): the policy layer does not make accepted or rejected
statuses terminal.  The RLS UPDATE policy on applications requires only
that the requester hold the admin role; for any admin and any new status
passing the CHECK constraint the update succeeds irrespective of the
targeted row's current status (in particular accepted→pending succeeds).
The restriction of status changes to pending applications exists only in
the admin UI, whose update controls are rendered exactly when the row's
status is `pending`. -/
theorem admin_update_policy_ignores_status (db : DB) (uid : Option Uuid)
    (appId : Uuid) (st : String) (fb : Option String) (now : Nat)
    (a : ApplicationRow)
    (hadmin : has_role db.user_roles uid .admin = true)
    (hst : statusCheck st = true) :
    applicationUpdateAllowed db uid = true ∧
    updateApplication db uid appId st fb now =
      .ok { db with applications := (db.applications.map
                (fun r => if r.id == appId then updateApplicationRow r st fb now else r)) } ∧
    adminControlsVisible a = (a.status == "pending") := by
  refine ⟨hadmin, ?_, rfl⟩
  simp [updateApplication, applicationUpdateAllowed, hadmin, hst]

/-- Claim C1, witness: the amended theorem applied in `dbAdminAccepted` to
admin 1 setting application 10 (currently accepted) back to `pending`. -/
theorem admin_update_policy_ignores_status_witness :
    applicationUpdateAllowed dbAdminAccepted (some 1) = true ∧
    updateApplication dbAdminAccepted (some 1) 10 "pending" none 5 =
      .ok { dbAdminAccepted with
            applications := (dbAdminAccepted.applications.map
                (fun r => if r.id == 10 then updateApplicationRow r "pending" none 5 else r)) } ∧
    adminControlsVisible appAccepted10 = (appAccepted10.status == "pending") :=
  admin_update_policy_ignores_status dbAdminAccepted (some 1) 10 "pending" none 5
    appAccepted10 (by decide) (by decide)

/-- Claim C2, counterexample: in `dbNoRoles` the `user_roles` table is
empty, yet the authenticated principal 5 — who has no role assignment —
reads the internship list and receives the active posting (id 3): the read
is not denied.  The SELECT policy tests `auth.role() = 'authenticated'`, a
session attribute independent of the role-assignment table. -/
theorem roleless_principal_reads_internships :
    dbNoRoles.user_roles = [] ∧
    visibleInternships dbNoRoles (some 5) ≠ [] ∧
    (visibleInternships dbNoRoles (some 5)).countP (fun i => i.id == 3) = 1 := by
  decide

/-- Claim C2 (amended): an authenticated principal with no row in the
role-assignment table can read every active posting — the internship SELECT
policy requires only an authenticated session and `is_active = true`, not a
role row.  Default-deny applies instead to unauthenticated principals
(denied on every row) and to inactive rows for non-admins; a denial yields
an empty filtered result, not an error. -/
theorem internship_read_requires_only_session_auth (db : DB) (uid : Uuid)
    (row inactiveRow : InternshipRow)
    (hactive : row.is_active = true)
    (hinactive : inactiveRow.is_active = false)
    (hnonadmin : has_role db.user_roles (some uid) .admin = false) :
    internshipSelectAllowed db (some uid) row = true ∧
    internshipSelectAllowed db none row = false ∧
    internshipSelectAllowed db (some uid) inactiveRow = false := by
  refine ⟨?_, ?_, ?_⟩
  · simp [internshipSelectAllowed, authRole, hactive]
  · simp [internshipSelectAllowed, authRole, has_role]
  · simp [internshipSelectAllowed, authRole, hinactive, hnonadmin]

/-- Claim C2, witness: in `dbNoRoles`, principal 5 (authenticated, no role
rows) can read the active posting 3, the anonymous principal cannot, and
principal 5 cannot read the inactive posting 4. -/
theorem internship_read_requires_only_session_auth_witness :
    internshipSelectAllowed dbNoRoles (some 5) internshipActive3 = true ∧
    internshipSelectAllowed dbNoRoles none internshipActive3 = false ∧
    internshipSelectAllowed dbNoRoles (some 5) internshipInactive4 = false :=
  internship_read_requires_only_session_auth dbNoRoles 5
    internshipActive3 internshipInactive4
    (by decide) (by decide) (by decide)

/-- Claim C5 (confirmed): a principal without the admin role — anonymous or
authenticated — cannot read an inactive posting; a principal holding the
admin role can read any posting, active or not, through the admin FOR ALL
policy; and any authenticated principal can read any active posting. -/
theorem inactive_internship_visibility (db : DB) (p q : Option Uuid)
    (x : Uuid) (i j : InternshipRow)
    (hi : i.is_active = false)
    (hp : has_role db.user_roles p .admin = false)
    (hq : has_role db.user_roles q .admin = true)
    (hj : j.is_active = true) :
    internshipSelectAllowed db p i = false ∧
    internshipSelectAllowed db q i = true ∧
    internshipSelectAllowed db (some x) j = true := by
  refine ⟨?_, ?_, ?_⟩
  · simp [internshipSelectAllowed, hi, hp]
  · simp [internshipSelectAllowed, hq]
  · simp [internshipSelectAllowed, authRole, hj]

/-- Claim C5, witness: with `rolesAdminOnly` (admin row for principal 2
only), principal 5 cannot read the inactive posting 4 of `dbNoRoles`, admin
2 can, and principal 5 reads the active posting 3. -/
theorem inactive_internship_visibility_witness :
    internshipSelectAllowed { dbNoRoles with user_roles := rolesAdminOnly }
      (some 5) internshipInactive4 = false ∧
    internshipSelectAllowed { dbNoRoles with user_roles := rolesAdminOnly }
      (some 2) internshipInactive4 = true ∧
    internshipSelectAllowed { dbNoRoles with user_roles := rolesAdminOnly }
      (some 5) internshipActive3 = true :=
  inactive_internship_visibility { dbNoRoles with user_roles := rolesAdminOnly }
    (some 5) (some 2) 5 internshipInactive4 internshipActive3
    (by decide) (by decide) (by decide) (by decide)

/-- Claim C7 (confirmed): `has_role` is a pure Boolean function (it is
side-effect-free by construction: it takes the table and returns a `Bool`
without touching any state).  It returns `false`, never an error, for the
unauthenticated principal (`none`) and for any principal with no row in the
role table; and because it is `SECURITY DEFINER` it consults the full
`user_roles` table rather than the caller-visible rows: in `rolesAdminOnly`,
caller 1 can see none of the rows, yet `has_role` still finds principal 2's
admin row — evaluating it on caller 1's visible rows instead would wrongly
answer `false`. -/
theorem has_role_total_and_elevated (roles : List UserRoleRow) (r : AppRole)
    (u : Uuid)
    (hnone : roles.countP (fun row => row.user_id == u) = 0) :
    has_role roles none r = false ∧
    has_role roles (some u) r = false ∧
    has_role rolesAdminOnly (some 2) .admin = true ∧
    visibleUserRoles rolesAdminOnly (some 1) = [] ∧
    has_role (visibleUserRoles rolesAdminOnly (some 1)) (some 2) .admin = false := by
  refine ⟨rfl, ?_, by decide, by decide, by decide⟩
  simp only [has_role, List.any_eq_false, Bool.and_eq_true, beq_iff_eq, not_and]
  intro row hmem hid
  have hall := List.countP_eq_zero.mp hnone row hmem
  simp [hid] at hall

/-- Claim C7, witness: the theorem at the concrete table `rolesAdminOnly`
and the unassigned principal 7. -/
theorem has_role_total_and_elevated_witness :
    has_role rolesAdminOnly none .admin = false ∧
    has_role rolesAdminOnly (some 7) .admin = false ∧
    has_role rolesAdminOnly (some 2) .admin = true ∧
    visibleUserRoles rolesAdminOnly (some 1) = [] ∧
    has_role (visibleUserRoles rolesAdminOnly (some 1)) (some 2) .admin = false :=
  has_role_total_and_elevated rolesAdminOnly .admin 7 (by decide)

/-- Claim C4 (confirmed): `handle_new_user` — the trigger fired by the
principal insert, hence a single atomic transition of the step relation —
creates exactly one profile row and exactly one role-assignment row for the
new principal (which had neither beforehand), populating the profile from
the signup metadata, and assigns role `admin` exactly when the metadata's
`role` entry is the string `admin`, else `student`. -/
theorem handle_new_user_creates_profile_and_role (db : DB) (u : AuthUser)
    (hp : db.profiles.countP (fun p => p.id == u.id) = 0)
    (hr : db.user_roles.countP (fun row => row.user_id == u.id) = 0) :
    applyOp db (Op.newUser u) = handle_new_user db u ∧
    (handle_new_user db u).profiles.countP (fun p => p.id == u.id) = 1 ∧
    (handle_new_user db u).user_roles.countP (fun row => row.user_id == u.id) = 1 ∧
    (handle_new_user db u).user_roles.filter (fun row => row.user_id == u.id) =
      [{ user_id := u.id
         role := if u.raw_user_meta_data.role == some "admin" then .admin else .student }] ∧
    (handle_new_user db u).profiles.filter (fun p => p.id == u.id) =
      [{ id := u.id
         full_name := u.raw_user_meta_data.full_name.getD ""
         email := u.email
         student_id := u.raw_user_meta_data.student_id
         department := u.raw_user_meta_data.department }] := by
  have hpnil : db.profiles.filter (fun p => p.id == u.id) = [] :=
    List.filter_eq_nil_iff.mpr (List.countP_eq_zero.mp hp)
  have hrnil : db.user_roles.filter (fun row => row.user_id == u.id) = [] :=
    List.filter_eq_nil_iff.mpr (List.countP_eq_zero.mp hr)
  refine ⟨rfl, ?_, ?_, ?_, ?_⟩
  · simp [handle_new_user, List.countP_append, hp, List.countP_cons]
  · simp [handle_new_user, List.countP_append, hr, List.countP_cons]
  · simp [handle_new_user, List.filter_append, hrnil]
  · simp [handle_new_user, List.filter_append, hpnil]

/-- A signup request whose metadata asks for the admin role. -/
def authUserAdmin : AuthUser :=
  { id := 7, email := "admin@klu.edu"
    raw_user_meta_data :=
      { full_name := some "A", student_id := none, department := none
        role := some "admin" } }

/-- Claim C4, witness: the theorem on the empty database and the concrete
admin signup `authUserAdmin`. -/
theorem handle_new_user_creates_profile_and_role_witness :
    applyOp emptyDB (Op.newUser authUserAdmin) = handle_new_user emptyDB authUserAdmin ∧
    (handle_new_user emptyDB authUserAdmin).profiles.countP
      (fun p => p.id == authUserAdmin.id) = 1 ∧
    (handle_new_user emptyDB authUserAdmin).user_roles.countP
      (fun row => row.user_id == authUserAdmin.id) = 1 ∧
    (handle_new_user emptyDB authUserAdmin).user_roles.filter
      (fun row => row.user_id == authUserAdmin.id) =
      [{ user_id := authUserAdmin.id
         role := if authUserAdmin.raw_user_meta_data.role == some "admin" then .admin
                 else .student }] ∧
    (handle_new_user emptyDB authUserAdmin).profiles.filter
      (fun p => p.id == authUserAdmin.id) =
      [{ id := authUserAdmin.id
         full_name := authUserAdmin.raw_user_meta_data.full_name.getD ""
         email := authUserAdmin.email
         student_id := authUserAdmin.raw_user_meta_data.student_id
         department := authUserAdmin.raw_user_meta_data.department }] :=
  handle_new_user_creates_profile_and_role emptyDB authUserAdmin (by decide) (by decide)

/-- Helper: `pairExists` distributes over append. -/
theorem pairExists_append (l l' : List ApplicationRow) (i s : Uuid) :
    pairExists (l ++ l') i s = (pairExists l i s || pairExists l' i s) := by
  simp [pairExists, List.any_append]

/-- Helper: the pair lookup in propositional form. -/
theorem pairExists_eq_false_iff (l : List ApplicationRow) (i s : Uuid) :
    pairExists l i s = false ↔
      ∀ a ∈ l, ¬(a.internship_id = i ∧ a.student_id = s) := by
  simp [pairExists, List.any_eq_false, Bool.and_eq_true, beq_iff_eq, not_and]

/-- Helper: appending a row whose pair is fresh preserves pair uniqueness. -/
theorem appPairUnique_append_singleton (l : List ApplicationRow)
    (row : ApplicationRow)
    (h : appPairUnique l = true)
    (hnew : pairExists l row.internship_id row.student_id = false) :
    appPairUnique (l ++ [row]) = true := by
  induction l with
  | nil => simp [appPairUnique, pairExists]
  | cons a tl ih =>
    simp only [appPairUnique, Bool.and_eq_true, Bool.not_eq_true'] at h
    rw [pairExists_eq_false_iff] at hnew
    have hnew_tl : pairExists tl row.internship_id row.student_id = false :=
      (pairExists_eq_false_iff tl _ _).mpr
        (fun b hb => hnew b (List.mem_cons_of_mem a hb))
    have ha := hnew a (List.mem_cons_self a tl)
    simp only [List.cons_append, appPairUnique, Bool.and_eq_true, Bool.not_eq_true']
    refine ⟨?_, ih h.2 hnew_tl⟩
    show pairExists (tl ++ [row]) a.internship_id a.student_id = false
    rw [pairExists_append, h.1]
    simp only [Bool.false_or, pairExists, List.any_cons, List.any_nil,
      Bool.or_false, Bool.and_eq_false_iff]
    by_cases h1 : row.internship_id = a.internship_id
    · by_cases h2 : row.student_id = a.student_id
      · exact absurd ⟨h1.symm, h2.symm⟩ ha
      · right; simp [beq_iff_eq, h2]
    · left; simp [beq_iff_eq, h1]

/-- Helper: the conditional row update of an admin UPDATE keeps the
`(internship_id, student_id)` pair of every row. -/
theorem updateRow_preserves_pair (a : ApplicationRow) (appId : Uuid)
    (st : String) (fb : Option String) (now : Nat) :
    (if a.id == appId then updateApplicationRow a st fb now else a).internship_id
        = a.internship_id ∧
    (if a.id == appId then updateApplicationRow a st fb now else a).student_id
        = a.student_id := by
  by_cases h : (a.id == appId) = true <;>
    simp [h, updateApplicationRow, update_application_timestamp]

/-- Helper: the pair lookup is invariant under the admin UPDATE's row map. -/
theorem pairExists_map_update (l : List ApplicationRow) (appId : Uuid)
    (st : String) (fb : Option String) (now : Nat) (i s : Uuid) :
    pairExists (l.map
        (fun a => if a.id == appId then updateApplicationRow a st fb now else a)) i s =
      pairExists l i s := by
  induction l with
  | nil => rfl
  | cons a tl ih =>
    simp only [List.map_cons, pairExists, List.any_cons] at *
    rw [ih, (updateRow_preserves_pair a appId st fb now).1,
      (updateRow_preserves_pair a appId st fb now).2]

/-- Helper: pair uniqueness is invariant under the admin UPDATE's row map. -/
theorem appPairUnique_map_update (l : List ApplicationRow) (appId : Uuid)
    (st : String) (fb : Option String) (now : Nat)
    (h : appPairUnique l = true) :
    appPairUnique (l.map
        (fun a => if a.id == appId then updateApplicationRow a st fb now else a)) = true := by
  induction l with
  | nil => exact h
  | cons a tl ih =>
    simp only [appPairUnique, Bool.and_eq_true, Bool.not_eq_true'] at h
    simp only [List.map_cons, appPairUnique, Bool.and_eq_true, Bool.not_eq_true']
    refine ⟨?_, ih h.2⟩
    rw [pairExists_map_update, (updateRow_preserves_pair a appId st fb now).1,
      (updateRow_preserves_pair a appId st fb now).2]
    exact h.1

/-- Helper: a successful INSERT preserves pair uniqueness — the insert only
succeeds past the `UNIQUE` guard. -/
theorem insertApplication_pairUnique (db : DB) (uid : Option Uuid)
    (row : ApplicationRow)
    (h : appPairUnique db.applications = true) (db' : DB)
    (heq : insertApplication db uid row = .ok db') :
    appPairUnique db'.applications = true := by
  simp only [insertApplication] at heq
  split at heq
  · exact absurd heq (by simp)
  · split at heq
    · exact absurd heq (by simp)
    · split at heq
      · exact absurd heq (by simp)
      · rename_i hpair
        cases heq
        exact appPairUnique_append_singleton _ _ h (Bool.eq_false_iff.mpr hpair)

/-- Helper: a successful UPDATE preserves pair uniqueness — it never
changes the `(internship_id, student_id)` pair of a row. -/
theorem updateApplication_pairUnique (db : DB) (uid : Option Uuid)
    (appId : Uuid) (st : String) (fb : Option String) (now : Nat)
    (h : appPairUnique db.applications = true) (db' : DB)
    (heq : updateApplication db uid appId st fb now = .ok db') :
    appPairUnique db'.applications = true := by
  simp only [updateApplication] at heq
  split at heq
  · cases heq; exact h
  · split at heq
    · exact absurd heq (by simp)
    · cases heq
      exact appPairUnique_map_update _ _ _ _ _ h

/-- Helper: every single operation preserves pair uniqueness of the
applications table. -/
theorem applyOp_preserves_pairUnique (db : DB) (op : Op)
    (h : appPairUnique db.applications = true) :
    appPairUnique (applyOp db op).applications = true := by
  cases op with
  | newUser u => exact h
  | applyTo uid iid newId now =>
    simp only [applyOp, handleApply]
    split
    · rename_i db' heq
      exact insertApplication_pairUnique db (some uid) _ h db' heq
    · exact h
  | adminUpdate uid appId st fb now =>
    simp only [applyOp]
    split
    · rename_i db' heq
      exact updateApplication_pairUnique db uid appId st fb now h db' heq
    · exact h

/-- Helper: pair uniqueness is preserved along any operation sequence. -/
theorem foldl_preserves_pairUnique (ops : List Op) (db : DB)
    (h : appPairUnique db.applications = true) :
    appPairUnique (ops.foldl applyOp db).applications = true := by
  induction ops generalizing db with
  | nil => exact h
  | cons op tl ih => exact ih _ (applyOp_preserves_pairUnique db op h)

/-- Claim C3 (confirmed): in every reachable state the applications table
holds at most one row per `(internship_id, student_id)` pair; and a second
create attempt by the owning student for an existing pair returns the
conflict error, leaves the table unchanged, and is surfaced by `handleApply`
with the duplicate-key message — distinct from the policy-denial and
check-violation messages, not silently ignored. -/
theorem application_pair_uniqueness (ops : List Op) (db : DB)
    (uid iid newId : Uuid) (now : Nat)
    (hdup : pairExists db.applications iid uid = true) :
    appPairUnique (reachable ops).applications = true ∧
    handleApply db uid iid newId now = (db, Toast.error (dbErrorMessage .conflict)) ∧
    dbErrorMessage .conflict ≠ dbErrorMessage .policyDenied ∧
    dbErrorMessage .conflict ≠ dbErrorMessage .checkViolation := by
  refine ⟨foldl_preserves_pairUnique ops emptyDB rfl, ?_, by decide, by decide⟩
  simp [handleApply, insertApplication, applicationInsertAllowed, statusCheck, hdup]

/-- Claim C3, witness: starting from `dbAdminAccepted`, whose table already
holds the pair (internship 20, student 2), student 2's second apply to
internship 20 yields the conflict toast and the unchanged state; the
invariant holds in the state reached by a duplicate-apply sequence. -/
theorem application_pair_uniqueness_witness :
    appPairUnique (reachable
      [Op.applyTo 2 20 10 0, Op.applyTo 2 20 11 1]).applications = true ∧
    handleApply dbAdminAccepted 2 20 99 8 =
      (dbAdminAccepted, Toast.error (dbErrorMessage .conflict)) ∧
    dbErrorMessage .conflict ≠ dbErrorMessage .policyDenied ∧
    dbErrorMessage .conflict ≠ dbErrorMessage .checkViolation :=
  application_pair_uniqueness [Op.applyTo 2 20 10 0, Op.applyTo 2 20 11 1]
    dbAdminAccepted 2 20 99 8 (by decide)

/-- Claim C6 (confirmed): when an admin's status update commits and the
notification email then fails, `handleStatusUpdate` keeps the committed
state (new status, feedback, trigger-refreshed timestamp), makes exactly
one email attempt with no retry, and shows the distinct partial-success
warning — different from the full-success toast and from each datastore
failure message; a successful email also sees exactly one attempt. -/
theorem status_update_survives_email_failure (db : DB) (uid : Option Uuid)
    (appId : Uuid) (st email fbText : String) (now : Nat)
    (hadmin : has_role db.user_roles uid .admin = true)
    (hst : statusCheck st = true) :
    (handleStatusUpdate db uid appId st email fbText now false).db =
      { db with applications := (db.applications.map
          (fun a => if a.id == appId then
              updateApplicationRow a st (if fbText == "" then none else some fbText) now
            else a)) } ∧
    (handleStatusUpdate db uid appId st email fbText now false).emailAttempts = 1 ∧
    (handleStatusUpdate db uid appId st email fbText now false).toast =
      Toast.error "Status updated but email notification failed" ∧
    (handleStatusUpdate db uid appId st email fbText now false).toast ≠
      Toast.success ("Application " ++ st ++ " and email sent!") ∧
    (handleStatusUpdate db uid appId st email fbText now false).toast ≠
      Toast.error (dbErrorMessage .policyDenied) ∧
    (handleStatusUpdate db uid appId st email fbText now false).toast ≠
      Toast.error (dbErrorMessage .conflict) ∧
    (handleStatusUpdate db uid appId st email fbText now false).toast ≠
      Toast.error (dbErrorMessage .checkViolation) ∧
    (handleStatusUpdate db uid appId st email fbText now true).emailAttempts = 1 := by
  have hupd : updateApplication db uid appId st
      (if fbText == "" then none else some fbText) now =
      .ok { db with applications := (db.applications.map
          (fun a => if a.id == appId then
              updateApplicationRow a st (if fbText == "" then none else some fbText) now
            else a)) } := by
    simp [updateApplication, applicationUpdateAllowed, hadmin, hst]
  refine ⟨?_, ?_, ?_, ?_, ?_, ?_, ?_, ?_⟩ <;>
    simp only [handleStatusUpdate, hupd] <;>
    simp [dbErrorMessage]

/-- Claim C6, witness: in `dbAdminAccepted`, admin 1 updates application 10
to `accepted` with feedback `Great fit`; the email fails. -/
theorem status_update_survives_email_failure_witness :
    (handleStatusUpdate dbAdminAccepted (some 1) 10 "accepted" "s@klu.edu" "Great fit" 7 false).db =
      { dbAdminAccepted with applications := (dbAdminAccepted.applications.map
          (fun a => if a.id == 10 then
              updateApplicationRow a "accepted"
                (if "Great fit" == "" then none else some "Great fit") 7
            else a)) } ∧
    (handleStatusUpdate dbAdminAccepted (some 1) 10 "accepted" "s@klu.edu" "Great fit" 7 false).emailAttempts = 1 ∧
    (handleStatusUpdate dbAdminAccepted (some 1) 10 "accepted" "s@klu.edu" "Great fit" 7 false).toast =
      Toast.error "Status updated but email notification failed" ∧
    (handleStatusUpdate dbAdminAccepted (some 1) 10 "accepted" "s@klu.edu" "Great fit" 7 false).toast ≠
      Toast.success ("Application " ++ "accepted" ++ " and email sent!") ∧
    (handleStatusUpdate dbAdminAccepted (some 1) 10 "accepted" "s@klu.edu" "Great fit" 7 false).toast ≠
      Toast.error (dbErrorMessage .policyDenied) ∧
    (handleStatusUpdate dbAdminAccepted (some 1) 10 "accepted" "s@klu.edu" "Great fit" 7 false).toast ≠
      Toast.error (dbErrorMessage .conflict) ∧
    (handleStatusUpdate dbAdminAccepted (some 1) 10 "accepted" "s@klu.edu" "Great fit" 7 false).toast ≠
      Toast.error (dbErrorMessage .checkViolation) ∧
    (handleStatusUpdate dbAdminAccepted (some 1) 10 "accepted" "s@klu.edu" "Great fit" 7 true).emailAttempts = 1 :=
  status_update_survives_email_failure dbAdminAccepted (some 1) 10 "accepted"
    "s@klu.edu" "Great fit" 7 (by decide) (by decide)

/-- Claim C10 (confirmed): every admin status update writes the feedback
column unconditionally: the stored value becomes the entered text when
non-empty and `null` otherwise, regardless of the row's previous feedback
(which is thereby overwritten, possibly cleared); and the email payload
carries the entered text, the empty string when nothing was entered. -/
theorem feedback_overwritten_on_update (db : DB) (uid : Option Uuid)
    (appId : Uuid) (st email fbText : String) (now : Nat) (emailOk : Bool)
    (a : ApplicationRow)
    (hadmin : has_role db.user_roles uid .admin = true)
    (hst : statusCheck st = true) :
    (handleStatusUpdate db uid appId st email fbText now emailOk).db.applications =
      (db.applications.map
        (fun r => if r.id == appId then
            updateApplicationRow r st (if fbText == "" then none else some fbText) now
          else r)) ∧
    (updateApplicationRow a st (if fbText == "" then none else some fbText) now).feedback =
      (if fbText == "" then none else some fbText) ∧
    (handleStatusUpdate db uid appId st email fbText now emailOk).emailPayload =
      some { recipient := email, status := st, feedback := fbText } := by
  have hupd : updateApplication db uid appId st
      (if fbText == "" then none else some fbText) now =
      .ok { db with applications := (db.applications.map
          (fun r => if r.id == appId then
              updateApplicationRow r st (if fbText == "" then none else some fbText) now
            else r)) } := by
    simp [updateApplication, applicationUpdateAllowed, hadmin, hst]
  cases emailOk <;>
    simp only [handleStatusUpdate, hupd] <;>
    simp [updateApplicationRow, update_application_timestamp]

/-- Claim C10, witness: admin 1 updates application 10 to `rejected` with
empty feedback text, clearing the stored feedback to `null` while the email
payload carries the empty string. -/
theorem feedback_overwritten_on_update_witness :
    (handleStatusUpdate dbAdminAccepted (some 1) 10 "rejected" "s@klu.edu" "" 9 true).db.applications =
      (dbAdminAccepted.applications.map
        (fun r => if r.id == 10 then
            updateApplicationRow r "rejected" (if "" == "" then none else some "") 9
          else r)) ∧
    (updateApplicationRow appAccepted10 "rejected" (if "" == "" then none else some "") 9).feedback =
      (if "" == "" then none else some "") ∧
    (handleStatusUpdate dbAdminAccepted (some 1) 10 "rejected" "s@klu.edu" "" 9 true).emailPayload =
      some { recipient := "s@klu.edu", status := "rejected", feedback := "" } :=
  feedback_overwritten_on_update dbAdminAccepted (some 1) 10 "rejected"
    "s@klu.edu" "" 9 true appAccepted10 (by decide) (by decide)

/-- Claim C9 (confirmed): the notification function selects the acceptance
subject and template exactly for the status string `accepted`; every other
status — `rejected`, but equally any value outside the enum, such as
`pending` — is silently given the rejection subject and template, and the
handler never rejects a request over the status value: it always attempts
the send and answers 200 whenever delivery succeeds (500 only on delivery
failure). -/
theorem email_template_selection (status fb addr : String)
    (hne : status ≠ "accepted") :
    emailSubject "accepted" = acceptedSubject ∧
    emailMessage "accepted" fb = acceptedBody fb ∧
    emailSubject status = rejectedSubject ∧
    emailMessage status fb = rejectedBody fb ∧
    acceptedSubject ≠ rejectedSubject ∧
    (emailHandler { recipient := addr, status := status, feedback := fb } true).responseStatus = 200 ∧
    (emailHandler { recipient := addr, status := status, feedback := fb } true).sentSubject =
      some (emailSubject status) ∧
    (emailHandler { recipient := addr, status := status, feedback := fb } false).responseStatus = 500 := by
  refine ⟨rfl, rfl, ?_, ?_, by decide, rfl, rfl, rfl⟩
  · simp [emailSubject, hne]
  · simp [emailMessage, hne]

/-- Claim C9, witness: the theorem at the out-of-enum status `pending`. -/
theorem email_template_selection_witness :
    emailSubject "accepted" = acceptedSubject ∧
    emailMessage "accepted" "fb" = acceptedBody "fb" ∧
    emailSubject "pending" = rejectedSubject ∧
    emailMessage "pending" "fb" = rejectedBody "fb" ∧
    acceptedSubject ≠ rejectedSubject ∧
    (emailHandler { recipient := "s@klu.edu", status := "pending", feedback := "fb" } true).responseStatus = 200 ∧
    (emailHandler { recipient := "s@klu.edu", status := "pending", feedback := "fb" } true).sentSubject =
      some (emailSubject "pending") ∧
    (emailHandler { recipient := "s@klu.edu", status := "pending", feedback := "fb" } false).responseStatus = 500 :=
  email_template_selection "pending" "fb" "s@klu.edu" (by decide)

/-- Claim C8 (confirmed): signup input with a syntactically invalid email,
or a password shorter than 6 characters, or an (after trimming) empty
display name is rejected by the zod schema before the auth network call,
with only the first violation (in field order email, password, fullName)
reported; signin input with a malformed email or empty password is rejected
the same way. -/
theorem signup_signin_validation
    (e1 p1 n1 e2 p2 n2 e3 p3 n3 e4 p4 e5 p5 : String)
    (sid dep : Option String) (err : Option String)
    (h1 : zodEmailOk (strTrim e1) = false)
    (h2e : zodEmailOk (strTrim e2) = true) (h2p : p2.length < 6)
    (h3e : zodEmailOk (strTrim e3) = true) (h3p : 6 ≤ p3.length)
    (h3n : (strTrim n3).length = 0)
    (h4 : zodEmailOk (strTrim e4) = false)
    (h5e : zodEmailOk (strTrim e5) = true) (h5p : p5.length = 0) :
    handleSignUp e1 p1 n1 sid dep err =
      { networkCalled := false, toast := .error "Invalid email address" } ∧
    handleSignUp e2 p2 n2 sid dep err =
      { networkCalled := false, toast := .error "Password must be at least 6 characters" } ∧
    handleSignUp e3 p3 n3 sid dep err =
      { networkCalled := false, toast := .error "Full name is required" } ∧
    handleSignIn e4 p4 err =
      { networkCalled := false, toast := .error "Invalid email address" } ∧
    handleSignIn e5 p5 err =
      { networkCalled := false, toast := .error "Password is required" } := by
  refine ⟨?_, ?_, ?_, ?_, ?_⟩
  · simp [handleSignUp, signupSchema, h1]
  · simp [handleSignUp, signupSchema, h2e, h2p]
  · simp [handleSignUp, signupSchema, h3e, h3n, Nat.not_lt.mpr h3p]
  · simp [handleSignIn, signinSchema, h4]
  · simp [handleSignIn, signinSchema, h5e, h5p]

/-- Claim C8, witness: concrete malformed inputs — a bad email, a 5-char
password, a whitespace-only name, a bad signin email, an empty signin
password — each rejected with no network call and the first violation's
message. -/
theorem signup_signin_validation_witness :
    handleSignUp "bad" "123456" "Jo" (some "2400030001") (some "CS") none =
      { networkCalled := false, toast := .error "Invalid email address" } ∧
    handleSignUp "a@b.co" "12345" "Jo" (some "2400030001") (some "CS") none =
      { networkCalled := false, toast := .error "Password must be at least 6 characters" } ∧
    handleSignUp "a@b.co" "123456" "  " (some "2400030001") (some "CS") none =
      { networkCalled := false, toast := .error "Full name is required" } ∧
    handleSignIn "bad" "x" none =
      { networkCalled := false, toast := .error "Invalid email address" } ∧
    handleSignIn "a@b.co" "" none =
      { networkCalled := false, toast := .error "Password is required" } :=
  signup_signin_validation "bad" "123456" "Jo" "a@b.co" "12345" "Jo"
    "a@b.co" "123456" "  " "bad" "x" "a@b.co" ""
    (some "2400030001") (some "CS") none
    (by decide) (by decide) (by decide) (by decide) (by decide) (by decide)
    (by decide) (by decide) (by decide)
